import Mathlib

/-!
Shallow embedding of `src/ecs.js` (the `ECS` registry class) for verification.

Modelling conventions:
* Entities and systems are identified by natural-number ids.  The JS object
  graph (each entity holding a `systems` membership cache, each system holding
  an `entities` tracked list) is functionalized into the registry state as two
  finite maps `entitySystems` / `systemEntities` from ids to id lists.
* The immutable per-system attributes (`frequency`, `enable`, and the predicate
  `test`) live in an ambient environment `SysEnv`; the registry operations never
  modify them.
* The clock collaborator (`performance.now()`) is passed in explicitly as an
  integer instant; `lastUpdate` and `elapsed` are integers.
* Lifecycle hooks (`System#initialize`, `System#dispose`, `Entity#dispose`) are
  observationally recorded in an event log returned by the operations.
* JavaScript return values: `removeEntity` returns the entity; `removeSystem`
  has no `return` statement, so it returns `undefined`, modelled as
  `(none : Option Nat)`.
-/

namespace ECSSpec

/-- Observable lifecycle-hook invocations. -/
inductive Event where
  | sysInit (s : Nat)
  | sysDispose (s : Nat)
  | entDispose (e : Nat)
deriving DecidableEq

/-- Ambient, immutable attributes of the system objects: update frequency,
enable flag, and the membership predicate `test`.  In `src/ecs.js` these are
read off the `System` instances (`system.frequency`, `system.enable`,
`system.test(entity)`); the `System` class itself lives outside `src/`. -/
structure SysEnv where
  freq : Nat → Nat
  enable : Nat → Bool
  test : Nat → Nat → Bool

/-- State of an `ECS` registry instance (`src/ecs.js`, constructor):
`systemsFirst`, `entities`, `systems`, `updateCounter`, `lastUpdate`, plus the
functionalized per-entity membership caches (`entity.systems`) and per-system
tracked lists (`system.entities`). -/
structure ECS where
  systemsFirst : Bool
  entities : List Nat
  systems : List Nat
  entitySystems : Nat → List Nat
  systemEntities : Nat → List Nat
  updateCounter : Nat
  lastUpdate : Int

/-- Modelled from the spec: the attachment primitive of §4.1 (in the source it
is `System#addEntity`, which appends the system to the entity's membership
cache and the entity to the system's tracked list; `system.js` is not under
`src/`). -/
def attach (R : ECS) (s e : Nat) : ECS :=
  { R with
    entitySystems := fun e0 => if e0 = e then R.entitySystems e ++ [s] else R.entitySystems e0,
    systemEntities := fun s0 => if s0 = s then R.systemEntities s ++ [e] else R.systemEntities s0 }

/-- The registration loop shared by `addEntity` (over all systems) and
`addSystem` (over all entities): attach when the predicate passes. -/
def registerEntity (env : SysEnv) (e : Nat) (l : List Nat) (A : ECS) : ECS :=
  l.foldl (fun acc s => if env.test s e then attach acc s e else acc) A

/-- `ECS#addEntity`: push the entity onto the entity list, then test it against
every registered system, attaching on match.  (The JS back-reference
`entity.ecs = this` has no observable effect in scope and is not modelled.) -/
def addEntity (env : SysEnv) (R : ECS) (e : Nat) : ECS :=
  registerEntity env e R.systems { R with entities := R.entities ++ [e] }

/-- `ECS#addSystem`: push the system, call `initialize` (recorded as an event),
then test every registered entity against it, attaching on match. -/
def addSystem (env : SysEnv) (R : ECS) (s : Nat) : ECS × List Event :=
  (R.entities.foldl (fun acc e => if env.test s e then attach acc s e else acc)
    { R with systems := R.systems ++ [s] },
   [Event.sysInit s])

/-- Modelled from the spec: the `fastSplice` unordered-removal utility of §6
(`utils.js` is not under `src/`): remove the element at index `i` by
overwriting it with the last element and shrinking the list by one. -/
def fastSplice (l : List Nat) (i : Nat) : List Nat :=
  (l.set i (l.getLastD 0)).dropLast

/-- Modelled from the spec: unordered removal of the first occurrence of a
value (used by `System#removeEntity` on the tracked list). -/
def removeFromList (l : List Nat) (x : Nat) : List Nat :=
  match l.findIdx? (fun y => y = x) with
  | some i => fastSplice l i
  | none => l

/-- Modelled from the spec: the detach half of the §4.1 primitive (in the
source it is `System#removeEntity`): unordered-remove the entity from the
system's tracked list. -/
def detach (R : ECS) (s e : Nat) : ECS :=
  { R with
    systemEntities := fun s0 =>
      if s0 = s then removeFromList (R.systemEntities s) e else R.systemEntities s0 }

/-- Modelled from the spec: `Entity#dispose` (§3, §4.1; `entity.js` is not
under `src/`): detach the entity from every system in its membership cache,
then clear the membership cache. -/
def disposeEntity (R : ECS) (e : Nat) : ECS :=
  let R1 := (R.entitySystems e).foldl (fun acc s => detach acc s e) R
  { R1 with entitySystems := fun e0 => if e0 = e then [] else R1.entitySystems e0 }

/-- `ECS#removeEntity`: `indexOf` the entity; if absent do nothing; if present
call `entity.dispose()` then `fastSplice` it out of the entity list.  Either
way return the entity (the JS function ends with `return entity`). -/
def removeEntity (R : ECS) (e : Nat) : ECS × List Event × Nat :=
  match R.entities.findIdx? (fun y => y = e) with
  | none => (R, [], e)
  | some i =>
      ({ disposeEntity R e with entities := fastSplice (disposeEntity R e).entities i },
       [Event.entDispose e], e)

/-- `ECS#removeSystem`: `indexOf` the system; if absent do nothing; if present
`fastSplice` it out of the system list and then call `system.dispose()`.  The
JS function has no `return` statement, so its value is `undefined`, modelled as
`none`. -/
def removeSystem (R : ECS) (s : Nat) : ECS × List Event × Option Nat :=
  match R.systems.findIdx? (fun y => y = s) with
  | none => (R, [], none)
  | some i =>
      ({ R with systems := fastSplice R.systems i }, [Event.sysDispose s], none)

/-- The per-(pair) skip test of both update loops:
`if (this.updateCounter % system.frequency > 0 || !system.enable) continue;`
`invoked` is the negation — true exactly when `system.update` is called. -/
def invoked (env : SysEnv) (c s : Nat) : Bool :=
  !(decide (c % env.freq s > 0) || !(env.enable s))

/-- The (entity, system) pairs on which `updateEntities` calls `system.update`
when the tick counter is `c`: outer loop over the entity list, inner loop over
each entity's membership cache. -/
def pairsEntitiesAt (env : SysEnv) (R : ECS) (c : Nat) : List (Nat × Nat) :=
  R.entities.flatMap (fun e =>
    ((R.entitySystems e).filter (fun s => invoked env c s)).map (fun s => (e, s)))

/-- The (entity, system) pairs on which `updateSystems` calls `system.update`
when the tick counter is `c`: outer loop over the system list, inner loop over
each system's tracked list. -/
def pairsSystemsAt (env : SysEnv) (R : ECS) (c : Nat) : List (Nat × Nat) :=
  R.systems.flatMap (fun s =>
    ((R.systemEntities s).filter (fun _ => invoked env c s)).map (fun e => (e, s)))

/-- `ECS#updateEntities`: dispatch over entities at the current (pre-increment)
counter, then increment `updateCounter` and set `lastUpdate = now`.  Returns
the new state, the invoked (entity, system) pairs, and the `elapsed` value
passed to every `system.update` call. -/
def updateEntities (env : SysEnv) (R : ECS) (now elapsed : Int) :
    ECS × List (Nat × Nat) × Int :=
  ({ R with updateCounter := R.updateCounter + 1, lastUpdate := now },
   pairsEntitiesAt env R R.updateCounter, elapsed)

/-- `ECS#updateSystems`: dispatch over systems, then increment the counter and
set `lastUpdate = now`. -/
def updateSystems (env : SysEnv) (R : ECS) (now elapsed : Int) :
    ECS × List (Nat × Nat) × Int :=
  ({ R with updateCounter := R.updateCounter + 1, lastUpdate := now },
   pairsSystemsAt env R R.updateCounter, elapsed)

/-- `ECS#update`: read the clock, compute `elapsed = now - lastUpdate`, then
dispatch through `updateSystems` or `updateEntities` according to the
`systemsFirst` flag fixed at construction. -/
def update (env : SysEnv) (R : ECS) (now : Int) : ECS × List (Nat × Nat) × Int :=
  let elapsed := now - R.lastUpdate
  if R.systemsFirst then updateSystems env R now elapsed
  else updateEntities env R now elapsed

/-- A fragment of JavaScript values, enough to model what the `ECS`
constructor does with its `options` argument. -/
inductive JsValue where
  | undef
  | null
  | bool (b : Bool)
  | num (n : Int)
  | str (s : String)
  | obj (systemsFirst : Option JsValue)

/-- The property read `options.systemsFirst` with JavaScript semantics:
reading a property of `undefined` or `null` throws a `TypeError`; on an object
it yields the field (or `undefined` when absent); on any other primitive the
value is boxed and the read yields `undefined`. -/
def readSystemsFirst : JsValue → Except String JsValue
  | JsValue.undef => Except.error "TypeError"
  | JsValue.null => Except.error "TypeError"
  | JsValue.obj f => Except.ok (f.getD JsValue.undef)
  | _ => Except.ok JsValue.undef

/-- JavaScript truthiness on the modelled value fragment. -/
def truthy : JsValue → Bool
  | JsValue.undef => false
  | JsValue.null => false
  | JsValue.bool b => b
  | JsValue.num n => decide (n ≠ 0)
  | JsValue.str s => decide (s ≠ "")
  | JsValue.obj _ => true

/-- A freshly constructed registry state: empty lists, counter `0`,
`lastUpdate` set to the clock reading taken in the constructor. -/
def mkECS (sf : Bool) (now0 : Int) : ECS :=
  { systemsFirst := sf
    entities := []
    systems := []
    entitySystems := fun _ => []
    systemEntities := fun _ => []
    updateCounter := 0
    lastUpdate := now0 }

/-- The `ECS` constructor: evaluates `options.systemsFirst || false` (so the
flag is the truthiness of the property read, which may throw), initializes the
lists and counter, and records `performance.now()` into `lastUpdate`. -/
def ECSnew (options : JsValue) (now0 : Int) : Except String ECS := do
  let sf ← readSystemsFirst options
  pure (mkECS (truthy sf) now0)

/-- The two membership structures mirror each other: every system in an
entity's cache is registered and tracks that entity, and every entity in a
system's tracked list is registered and caches that system.  Registry states
reachable through the API maintain this invariant. -/
abbrev Mirror (R : ECS) : Prop :=
  (∀ e ∈ R.entities, ∀ s ∈ R.entitySystems e, s ∈ R.systems ∧ e ∈ R.systemEntities s) ∧
  (∀ s ∈ R.systems, ∀ e ∈ R.systemEntities s, e ∈ R.entities ∧ s ∈ R.entitySystems e)

/-- Well-formed registry state: mirrored membership and duplicate-free lists. -/
abbrev WF (R : ECS) : Prop :=
  Mirror R ∧ R.entities.Nodup ∧ R.systems.Nodup ∧
  (∀ e ∈ R.entities, (R.entitySystems e).Nodup) ∧
  (∀ s ∈ R.systems, (R.systemEntities s).Nodup)

/-! ### Sample concrete values used by witnesses and counterexamples -/

/-- An environment whose single point of interest is system `5`: frequency 2,
enabled, predicate always true. -/
def envA : SysEnv :=
  { freq := fun _ => 2, enable := fun _ => true, test := fun _ _ => true }

/-- An environment identical to `envA` except that every system is disabled. -/
def envB : SysEnv :=
  { freq := fun _ => 2, enable := fun _ => false, test := fun _ _ => true }

/-- A small well-formed registry: entity `1` tracked by system `5`. -/
def regA : ECS :=
  { systemsFirst := false
    entities := [1]
    systems := [5]
    entitySystems := fun e => if e = 1 then [5] else []
    systemEntities := fun s => if s = 5 then [1] else []
    updateCounter := 0
    lastUpdate := 0 }

/-! ### Helper lemmas -/

theorem findIdx_none_of_not_mem {l : List Nat} {e : Nat} (h : e ∉ l) :
    l.findIdx? (fun y => y = e) = none := by
  rw [List.findIdx?_eq_none_iff]
  intro x hx
  simp only [decide_eq_false_iff_not]
  rintro rfl
  exact h hx

theorem ECSnew_ok {opts : JsValue} {t0 : Int} {R0 : ECS}
    (h0 : ECSnew opts t0 = Except.ok R0) : ∃ sf : Bool, R0 = mkECS sf t0 := by
  cases h : readSystemsFirst opts with
  | error msg => rw [ECSnew, h] at h0; cases h0
  | ok v =>
      rw [ECSnew, h] at h0
      exact ⟨truthy v, (Except.ok.injEq _ _ ▸ h0).symm⟩

/-! ### Claims about removal on absent inputs (C4, C5) -/

/-- Claim C5: removing an entity that is not in the registry's entity list
returns the entity, calls no disposal hook, and leaves the whole registry state
(entity list, system list, every tracked list and membership cache)
unchanged. -/
theorem removeEntity_absent_noop (R : ECS) (e : Nat) (h : e ∉ R.entities) :
    removeEntity R e = (R, [], e) := by
  unfold removeEntity
  rw [findIdx_none_of_not_mem h]

theorem removeEntity_absent_noop_witness :
    (7 : Nat) ∉ regA.entities ∧ removeEntity regA 7 = (regA, [], 7) :=
  ⟨by decide, removeEntity_absent_noop regA 7 (by decide)⟩

/-- Claim C4 (amended): removing a system that is not in the registry's system
list is a silent no-op — no `dispose` call, state unchanged — and the call
returns `undefined` (the JS function has no `return` statement), not the input
system. -/
theorem removeSystem_absent_noop (R : ECS) (s : Nat) (h : s ∉ R.systems) :
    removeSystem R s = (R, [], none) := by
  unfold removeSystem
  rw [findIdx_none_of_not_mem h]

theorem removeSystem_absent_noop_witness :
    (7 : Nat) ∉ regA.systems ∧ removeSystem regA 7 = (regA, [], none) :=
  ⟨by decide, removeSystem_absent_noop regA 7 (by decide)⟩

/-- Claim C4, counterexample to the claim as stated: for the empty registry
and the absent system `7`, `removeSystem` returns `undefined` (`none`), not the
input system `7` — the claim's "the call's return value is s" is false. -/
theorem removeSystem_return_counterexample :
    (7 : Nat) ∉ (mkECS false 0).systems ∧
      (removeSystem (mkECS false 0) 7).2.2 ≠ some 7 := by
  exact ⟨by decide, by decide⟩

/-! ### Claims about construction and the clock (C9, C10, C8) -/

/-- Claim C9, counterexample to the claim as stated: calling the constructor
with the non-object argument `5` does **not** throw — in JavaScript the
property read `(5).systemsFirst` boxes the primitive and yields `undefined`,
so construction succeeds with the entities-first default. -/
theorem ECSnew_nonobject_counterexample :
    ECSnew (JsValue.num 5) 0 = Except.ok (mkECS false 0) := rfl

/-- Claim C9 (amended): the constructor throws a `TypeError` when called with
no argument (`undefined`) or with `null`, because `options.systemsFirst` is
read unconditionally; for any other argument the read succeeds (on a
non-object primitive it yields `undefined`), and whenever the `systemsFirst`
field is absent or falsy the traversal mode defaults to entities-first. -/
theorem ECSnew_throw_and_default (t : Int) :
    ECSnew JsValue.undef t = Except.error "TypeError" ∧
    ECSnew JsValue.null t = Except.error "TypeError" ∧
    ∀ f : Option JsValue, truthy (f.getD JsValue.undef) = false →
      ECSnew (JsValue.obj f) t = Except.ok (mkECS false t) := by
  refine ⟨rfl, rfl, ?_⟩
  intro f hf
  have h1 : ECSnew (JsValue.obj f) t
      = Except.ok (mkECS (truthy (f.getD JsValue.undef)) t) := rfl
  rw [h1, hf]

theorem ECSnew_throw_and_default_witness :
    truthy ((none : Option JsValue).getD JsValue.undef) = false ∧
      ECSnew (JsValue.obj none) 0 = Except.ok (mkECS false 0) :=
  ⟨rfl, (ECSnew_throw_and_default 0).2.2 none rfl⟩

/-- Claim C10: `lastUpdate` is initialized from the clock at construction, so
the `elapsed` value produced by the first `update()` call is the time between
construction and that call. -/
theorem lastUpdate_construction (env : SysEnv) (opts : JsValue) (t0 t1 : Int)
    (R0 : ECS) (h0 : ECSnew opts t0 = Except.ok R0) :
    R0.lastUpdate = t0 ∧ (update env R0 t1).2.2 = t1 - t0 := by
  obtain ⟨sf, rfl⟩ := ECSnew_ok h0
  have hel : (update env (mkECS sf t0) t1).2.2 = t1 - (mkECS sf t0).lastUpdate := by
    unfold update
    split
    · rfl
    · rfl
  exact ⟨rfl, hel⟩

theorem lastUpdate_construction_witness :
    ECSnew (JsValue.obj none) 3 = Except.ok (mkECS false 3) ∧
      (mkECS false 3).lastUpdate = 3 ∧ (update envA (mkECS false 3) 10).2.2 = 10 - 3 :=
  ⟨rfl, lastUpdate_construction envA (JsValue.obj none) 3 10 (mkECS false 3) rfl⟩

/-- Claim C8: the tick counter starts at `0` at construction; each `update()`
call increments it by exactly one; and the traversal dispatched by that call
gates on the pre-increment counter value. -/
theorem tick_counter_spec (env : SysEnv) (R : ECS) (now : Int) (opts : JsValue)
    (t0 : Int) (R0 : ECS) (h0 : ECSnew opts t0 = Except.ok R0) :
    R0.updateCounter = 0 ∧
    (update env R now).1.updateCounter = R.updateCounter + 1 ∧
    (update env R now).2.1 =
      (if R.systemsFirst then pairsSystemsAt env R R.updateCounter
       else pairsEntitiesAt env R R.updateCounter) := by
  obtain ⟨sf, rfl⟩ := ECSnew_ok h0
  refine ⟨rfl, ?_, ?_⟩
  · unfold update
    split
    · rfl
    · rfl
  · unfold update
    split
    · rfl
    · rfl

theorem tick_counter_spec_witness :
    ECSnew (JsValue.obj none) 0 = Except.ok (mkECS false 0) ∧
      ((mkECS false 0).updateCounter = 0 ∧
       (update envA regA 10).1.updateCounter = regA.updateCounter + 1 ∧
       (update envA regA 10).2.1 =
         (if regA.systemsFirst then pairsSystemsAt envA regA regA.updateCounter
          else pairsEntitiesAt envA regA regA.updateCounter)) :=
  ⟨rfl, tick_counter_spec envA regA 10 (JsValue.obj none) 0 (mkECS false 0) rfl⟩

/-! ### Dispatch-loop membership lemmas -/

theorem invoked_eq_true_iff {env : SysEnv} {c s : Nat} :
    invoked env c s = true ↔ c % env.freq s = 0 ∧ env.enable s = true := by
  unfold invoked
  cases h : env.enable s
  · simp [h]
  · simp [h]

theorem invoked_false_of_disabled {env : SysEnv} {c s : Nat}
    (h : env.enable s = false) : invoked env c s = false := by
  unfold invoked
  simp [h]

theorem mem_pairsEntitiesAt {env : SysEnv} {R : ECS} {c e s : Nat} :
    (e, s) ∈ pairsEntitiesAt env R c ↔
      e ∈ R.entities ∧ s ∈ R.entitySystems e ∧ invoked env c s = true := by
  simp only [pairsEntitiesAt, List.mem_flatMap, List.mem_map, List.mem_filter,
    Prod.mk.injEq]
  constructor
  · rintro ⟨a, ha, b, ⟨hb, hi⟩, rfl, rfl⟩
    exact ⟨ha, hb, hi⟩
  · rintro ⟨ha, hb, hi⟩
    exact ⟨e, ha, s, ⟨hb, hi⟩, rfl, rfl⟩

theorem mem_pairsSystemsAt {env : SysEnv} {R : ECS} {c e s : Nat} :
    (e, s) ∈ pairsSystemsAt env R c ↔
      s ∈ R.systems ∧ e ∈ R.systemEntities s ∧ invoked env c s = true := by
  simp only [pairsSystemsAt, List.mem_flatMap, List.mem_map, List.mem_filter,
    Prod.mk.injEq]
  constructor
  · rintro ⟨a, ha, b, ⟨hb, hi⟩, rfl, rfl⟩
    exact ⟨ha, hb, hi⟩
  · rintro ⟨ha, hb, hi⟩
    exact ⟨s, ha, e, ⟨hb, hi⟩, rfl, rfl⟩

theorem pairs_mem_equiv {env : SysEnv} {R : ECS} {c : Nat} (hm : Mirror R)
    (p : Nat × Nat) : p ∈ pairsSystemsAt env R c ↔ p ∈ pairsEntitiesAt env R c := by
  obtain ⟨e, s⟩ := p
  rw [mem_pairsEntitiesAt, mem_pairsSystemsAt]
  constructor
  · rintro ⟨hs, he, hi⟩
    obtain ⟨he', hs'⟩ := hm.2 s hs e he
    exact ⟨he', hs', hi⟩
  · rintro ⟨he, hs, hi⟩
    obtain ⟨hs', he'⟩ := hm.1 e he s hs
    exact ⟨hs', he', hi⟩

/-! ### Claims about the update traversal (C7, C2) -/

/-- Claim C7: a disabled system never receives `update` calls from either
traversal, on any tick, even when the counter is divisible by its frequency. -/
theorem update_disable_gating (env : SysEnv) (R : ECS) (now : Int) (e s : Nat)
    (h : env.enable s = false) :
    (e, s) ∉ (update env R now).2.1 := by
  intro hmem
  simp only [update] at hmem
  split at hmem
  · have hi := (mem_pairsSystemsAt.mp hmem).2.2
    rw [invoked_false_of_disabled h] at hi
    cases hi
  · have hi := (mem_pairsEntitiesAt.mp hmem).2.2
    rw [invoked_false_of_disabled h] at hi
    cases hi

theorem update_disable_gating_witness :
    envB.enable 5 = false ∧ (1, 5) ∉ (update envB regA 0).2.1 :=
  ⟨rfl, update_disable_gating envB regA 0 1 5 rfl⟩

/-- The registry state reached by `addSystem(5)`, `addEntity(1)`,
`removeSystem(5)`: the system list is empty again, but entity `1`'s membership
cache still holds the dangling reference to system `5` — `removeSystem` never
touches entity caches. -/
def regB : ECS :=
  (removeSystem (addEntity envA (addSystem envA (mkECS false 0) 5).1 1) 5).1

/-- Claim C2, counterexample to the claim as stated: at the reachable state
`regB` (whose membership cache dangles after `removeSystem`), with no mutation
during the tick, the entities-first traversal still invokes the removed system
`5` on entity `1` through the stale cache while the systems-first traversal
does not — the two traversals do not visit the same pair set on every
unmutated registry state. -/
theorem dual_traversal_counterexample :
    (1, 5) ∈ (update envA { regB with systemsFirst := false } 0).2.1 ∧
      (1, 5) ∉ (update envA { regB with systemsFirst := true } 0).2.1 := by
  exact ⟨by decide, by decide⟩

/-- Claim C2 (amended): for every registry state whose membership bookkeeping
is two-sided — every system in an entity's membership cache is registered and
tracks that entity, and every entity in a system's tracked list is registered
and caches that system (the invariant maintained by `addEntity`, `addSystem`
and `removeEntity`, but broken by `removeSystem`'s dangling caches) — and with
no mutation during the tick, `update()` invokes `system.update` on the same
set of (entity, system) pairs whether the registry was constructed
systems-first or entities-first. -/
theorem dual_traversal_equivalence (env : SysEnv) (R : ECS) (now : Int)
    (p : Nat × Nat) (hm : Mirror R) :
    (p ∈ (update env { R with systemsFirst := true } now).2.1 ↔
     p ∈ (update env { R with systemsFirst := false } now).2.1) := by
  have h1 : (update env { R with systemsFirst := true } now).2.1
      = pairsSystemsAt env R R.updateCounter := rfl
  have h2 : (update env { R with systemsFirst := false } now).2.1
      = pairsEntitiesAt env R R.updateCounter := rfl
  rw [h1, h2]
  exact pairs_mem_equiv hm p

theorem dual_traversal_equivalence_witness :
    Mirror regA ∧
      ((1, 5) ∈ (update envA { regA with systemsFirst := true } 0).2.1 ↔
       (1, 5) ∈ (update envA { regA with systemsFirst := false } 0).2.1) :=
  ⟨by decide, dual_traversal_equivalence envA regA 0 (1, 5) (by decide)⟩

/-! ### Counting lemmas for the dispatch lists -/

theorem count_flatMap_pairs (l : List Nat) (f : Nat → List (Nat × Nat)) (p : Nat × Nat) :
    ((l.flatMap f).count p) = (l.map (fun a => (f a).count p)).sum := by
  induction l with
  | nil => simp
  | cons x xs ih => simp [List.flatMap_cons, List.count_append, ih]

theorem count_map_pair_left (l : List Nat) (a e s : Nat) :
    ((l.map (fun s0 => (a, s0))).count (e, s)) = if a = e then l.count s else 0 := by
  induction l with
  | nil => simp
  | cons x xs ih =>
      simp only [List.map_cons, List.count_cons, ih, beq_iff_eq, Prod.mk.injEq]
      split_ifs <;> simp_all

theorem count_map_pair_right (l : List Nat) (a e s : Nat) :
    ((l.map (fun e0 => (e0, a))).count (e, s)) = if a = s then l.count e else 0 := by
  induction l with
  | nil => simp
  | cons x xs ih =>
      simp only [List.map_cons, List.count_cons, ih, beq_iff_eq, Prod.mk.injEq]
      split_ifs <;> simp_all

theorem sum_map_single (l : List Nat) (e k : Nat) (hnd : l.Nodup) (he : e ∈ l) :
    (l.map (fun a => if a = e then k else 0)).sum = k := by
  induction l with
  | nil => cases he
  | cons x xs ih =>
      rw [List.nodup_cons] at hnd
      by_cases hxe : x = e
      · have h0 : (xs.map (fun a => if a = e then k else 0)).sum = 0 := by
          apply List.sum_eq_zero
          intro y hy
          obtain ⟨a, ha, rfl⟩ := List.mem_map.mp hy
          apply if_neg
          intro h
          apply hnd.1
          rw [hxe, ← h]
          exact ha
        simp [List.map_cons, if_pos hxe, List.sum_cons, h0]
      · have he' : e ∈ xs := by
          rcases List.mem_cons.mp he with h | h
          · exact absurd h.symm hxe
          · exact h
        simp [List.map_cons, List.sum_cons, if_neg hxe, ih hnd.2 he']

theorem count_pairsEntitiesAt (env : SysEnv) (R : ECS) (c e s : Nat)
    (hnd : R.entities.Nodup) (he : e ∈ R.entities)
    (hcache : (R.entitySystems e).Nodup) (hs : s ∈ R.entitySystems e) :
    (pairsEntitiesAt env R c).count (e, s) = if invoked env c s then 1 else 0 := by
  unfold pairsEntitiesAt
  rw [count_flatMap_pairs]
  have hmap : R.entities.map (fun a =>
        (((R.entitySystems a).filter (fun s0 => invoked env c s0)).map
          (fun s0 => (a, s0))).count (e, s))
      = R.entities.map (fun a =>
          if a = e then ((R.entitySystems e).filter (fun s0 => invoked env c s0)).count s
          else 0) := by
    apply List.map_congr_left
    intro a _
    rw [count_map_pair_left]
    rcases eq_or_ne a e with rfl | h
    · simp
    · simp [h]
  rw [hmap, sum_map_single _ _ _ hnd he]
  cases hi : invoked env c s
  · have h1 : (if false = true then (1 : Nat) else 0) = 0 := rfl
    rw [h1, List.count_eq_zero]
    intro hmem
    have h2 := (List.mem_filter.mp hmem).2
    simp only [hi] at h2
    cases h2
  · have h1 : (if true = true then (1 : Nat) else 0) = 1 := rfl
    rw [h1, List.count_filter hi, List.count_eq_one_of_mem hcache hs]

theorem count_pairsSystemsAt (env : SysEnv) (R : ECS) (c e s : Nat)
    (hnd : R.systems.Nodup) (hs : s ∈ R.systems)
    (htrack : (R.systemEntities s).Nodup) (he : e ∈ R.systemEntities s) :
    (pairsSystemsAt env R c).count (e, s) = if invoked env c s then 1 else 0 := by
  unfold pairsSystemsAt
  rw [count_flatMap_pairs]
  have hmap : R.systems.map (fun a =>
        (((R.systemEntities a).filter (fun _ => invoked env c a)).map
          (fun e0 => (e0, a))).count (e, s))
      = R.systems.map (fun a =>
          if a = s then ((R.systemEntities s).filter (fun _ => invoked env c s)).count e
          else 0) := by
    apply List.map_congr_left
    intro a _
    rw [count_map_pair_right]
    rcases eq_or_ne a s with rfl | h
    · simp
    · simp [h]
  rw [hmap, sum_map_single _ _ _ hnd hs]
  cases hi : invoked env c s
  · simp
  · simp [List.count_eq_one_of_mem htrack he]

/-! ### Claim C1: frequency gating -/

/-- Claim C1: for a well-formed registry, an enabled system `s` of positive
frequency `n`, and an entity `e` tracked by `s`, a single `update()` call (in
either traversal mode) invokes `s.update` on `e` exactly once when the current
tick counter is divisible by `n` and zero times otherwise — the gate depends
only on the global counter, never on when `s` was registered. -/
theorem update_frequency_gating (env : SysEnv) (R : ECS) (now : Int) (e s n : Nat)
    (hwf : WF R) (hs : s ∈ R.systems) (he : e ∈ R.systemEntities s)
    (hn : env.freq s = n) (hpos : 0 < n) (hen : env.enable s = true) :
    ((update env R now).2.1).count (e, s) =
      if R.updateCounter % n = 0 then 1 else 0 := by
  obtain ⟨hm, hndE, hndS, hcaches, htracks⟩ := hwf
  obtain ⟨he', hs'⟩ := hm.2 s hs e he
  have hinv : invoked env R.updateCounter s = true ↔ R.updateCounter % n = 0 := by
    rw [invoked_eq_true_iff, hn]
    exact ⟨fun h => h.1, fun h => ⟨h, hen⟩⟩
  have hif : (if invoked env R.updateCounter s then (1 : Nat) else 0)
      = if R.updateCounter % n = 0 then 1 else 0 := if_congr hinv rfl rfl
  simp only [update]
  split
  · rw [show (updateSystems env R now (now - R.lastUpdate)).2.1
        = pairsSystemsAt env R R.updateCounter from rfl]
    rw [count_pairsSystemsAt env R _ e s hndS hs (htracks s hs) he]
    exact hif
  · rw [show (updateEntities env R now (now - R.lastUpdate)).2.1
        = pairsEntitiesAt env R R.updateCounter from rfl]
    rw [count_pairsEntitiesAt env R _ e s hndE he' (hcaches e he') hs']
    exact hif

theorem update_frequency_gating_witness :
    WF regA ∧ 5 ∈ regA.systems ∧ 1 ∈ regA.systemEntities 5 ∧
      envA.freq 5 = 2 ∧ 0 < 2 ∧ envA.enable 5 = true ∧
      ((update envA regA 10).2.1).count (1, 5) =
        (if regA.updateCounter % 2 = 0 then 1 else 0) :=
  ⟨by decide, by decide, by decide, rfl, by decide, rfl,
   update_frequency_gating envA regA 10 1 5 2
     (by decide) (by decide) (by decide) rfl (by decide) rfl⟩

/-! ### Structural lemmas for registration and disposal -/

theorem registerEntity_cons (env : SysEnv) (e x : Nat) (xs : List Nat) (A : ECS) :
    registerEntity env e (x :: xs) A
      = registerEntity env e xs (if env.test x e then attach A x e else A) := rfl

theorem attach_cache_self (A : ECS) (s e : Nat) :
    (attach A s e).entitySystems e = A.entitySystems e ++ [s] := by
  simp [attach]

theorem attach_tracked_self (A : ECS) (s e : Nat) :
    (attach A s e).systemEntities s = A.systemEntities s ++ [e] := by
  simp [attach]

theorem registerEntity_entities (env : SysEnv) (e : Nat) (l : List Nat) (A : ECS) :
    (registerEntity env e l A).entities = A.entities := by
  induction l generalizing A with
  | nil => rfl
  | cons x xs ih =>
      rw [registerEntity_cons, ih]
      by_cases h : env.test x e
      · rw [if_pos h]
        rfl
      · rw [if_neg h]

theorem registerEntity_cache (env : SysEnv) (e : Nat) (l : List Nat) (A : ECS) :
    (registerEntity env e l A).entitySystems e =
      A.entitySystems e ++ l.filter (fun s => env.test s e) := by
  induction l generalizing A with
  | nil => simp [registerEntity]
  | cons x xs ih =>
      rw [registerEntity_cons, ih]
      by_cases h : env.test x e
      · rw [if_pos h, attach_cache_self,
          List.filter_cons_of_pos (p := fun s => env.test s e) h,
          List.append_assoc]
        rfl
      · rw [if_neg h, List.filter_cons_of_neg (p := fun s => env.test s e) h]

theorem registerEntity_tracked (env : SysEnv) (e : Nat) (l : List Nat) (A : ECS)
    (s0 : Nat) :
    (registerEntity env e l A).systemEntities s0 =
      A.systemEntities s0 ++
        List.replicate ((l.filter (fun s => env.test s e)).count s0) e := by
  induction l generalizing A with
  | nil => simp [registerEntity]
  | cons x xs ih =>
      rw [registerEntity_cons, ih]
      by_cases h : env.test x e
      · rw [if_pos h, List.filter_cons_of_pos (p := fun s => env.test s e) h]
        by_cases hx : s0 = x
        · subst hx
          rw [attach_tracked_self, List.count_cons_self, List.append_assoc,
            List.replicate_succ]
          rfl
        · have hother : (attach A x e).systemEntities s0 = A.systemEntities s0 := by
            simp [attach, hx]
          rw [hother, List.count_cons_of_ne hx]
      · rw [if_neg h, List.filter_cons_of_neg (p := fun s => env.test s e) h]

theorem foldl_detach_entities (l : List Nat) (e : Nat) (A : ECS) :
    (l.foldl (fun acc s => detach acc s e) A).entities = A.entities := by
  induction l generalizing A with
  | nil => rfl
  | cons x xs ih =>
      rw [List.foldl_cons]
      exact ih (detach A x e)

theorem disposeEntity_entities (R : ECS) (e : Nat) :
    (disposeEntity R e).entities = R.entities := by
  unfold disposeEntity
  exact foldl_detach_entities _ _ _

/-! ### Claim C3: double-add is not a no-op -/

/-- Claim C3, counterexample to the claim as stated: adding an entity that is
already present changes the entity list — `addEntity` pushes unconditionally,
so the registry of sample state `regA` (which already holds entity `1`) gains
a duplicate. -/
theorem addEntity_double_add_counterexample :
    (1 : Nat) ∈ regA.entities ∧ (addEntity envA regA 1).entities ≠ regA.entities := by
  exact ⟨by decide, by decide⟩

/-- Claim C3 (amended): calling `addEntity(e)` when `e` is already present is
**not** a no-op: it appends `e` to the entity list a second time, re-runs every
registered system's predicate on `e`, appends every matching system to `e`'s
membership cache again, and (for a duplicate-free system list) appends `e` a
second time to each matching system's tracked list. -/
theorem addEntity_double_add (env : SysEnv) (R : ECS) (e : Nat)
    (he : e ∈ R.entities) :
    (addEntity env R e).entities = R.entities ++ [e] ∧
    (addEntity env R e).entitySystems e =
      R.entitySystems e ++ R.systems.filter (fun s => env.test s e) ∧
    (R.systems.Nodup → ∀ s ∈ R.systems, env.test s e = true →
      (addEntity env R e).systemEntities s = R.systemEntities s ++ [e]) := by
  refine ⟨?_, ?_, ?_⟩
  · rw [addEntity, registerEntity_entities]
  · rw [addEntity, registerEntity_cache]
  · intro hnd s hs ht
    have hc : ((R.systems.filter (fun s0 => env.test s0 e)).count s) = 1 := by
      rw [List.count_filter (p := fun s0 => env.test s0 e) ht,
        List.count_eq_one_of_mem hnd hs]
    rw [addEntity, registerEntity_tracked]
    rw [show ({ R with entities := R.entities ++ [e] } : ECS).systemEntities
        = R.systemEntities from rfl]
    rw [hc]
    rfl

theorem addEntity_double_add_witness :
    (1 : Nat) ∈ regA.entities ∧
      ((addEntity envA regA 1).entities = regA.entities ++ [1] ∧
       (addEntity envA regA 1).entitySystems 1 =
         regA.entitySystems 1 ++ regA.systems.filter (fun s => envA.test s 1) ∧
       (regA.systems.Nodup → ∀ s ∈ regA.systems, envA.test s 1 = true →
         (addEntity envA regA 1).systemEntities s = regA.systemEntities s ++ [1])) :=
  ⟨by decide, addEntity_double_add envA regA 1 (by decide)⟩

/-! ### Claim C6: removal of a present entity -/

/-- Claim C6: removing a present entity first runs its disposal (detaching it
from every system in its membership cache and clearing the cache), then
removes it from the entity list by swap-with-last unordered removal at the
index found before disposal, and returns the removed entity. -/
theorem removeEntity_present_dispose_then_splice (R : ECS) (e : Nat)
    (he : e ∈ R.entities) :
    ∃ i, R.entities.findIdx? (fun y => y = e) = some i ∧
      removeEntity R e =
        ({ disposeEntity R e with entities := fastSplice R.entities i },
         [Event.entDispose e], e) := by
  have hsome : (R.entities.findIdx? (fun y => y = e)).isSome := by
    rw [List.findIdx?_isSome, List.any_eq_true]
    exact ⟨e, he, by simp⟩
  obtain ⟨i, hi⟩ := Option.isSome_iff_exists.mp hsome
  refine ⟨i, hi, ?_⟩
  unfold removeEntity
  rw [hi, disposeEntity_entities]

theorem removeEntity_present_witness :
    (1 : Nat) ∈ regA.entities ∧
      (∃ i, regA.entities.findIdx? (fun y => y = 1) = some i ∧
        removeEntity regA 1 =
          ({ disposeEntity regA 1 with entities := fastSplice regA.entities i },
           [Event.entDispose 1], 1)) :=
  ⟨by decide, removeEntity_present_dispose_then_splice regA 1 (by decide)⟩

end ECSSpec
